import Mathlib

/-!
Verification of the XShaderCompiler front-end core: a shallow embedding of
the type-denoter system (src/Compiler/AST/TypeDenoter.cpp), the HLSL keyword
tables (src/Compiler/Frontend/HLSL/HLSLKeywords.cpp) and the pre-processor
if-block records (src/Compiler/PreProcessor.h), with theorems checking the
specification against this embedding.
-/

deriving instance DecidableEq for Except

namespace Xsc

/--
Modelled from the spec: the DataType enumeration is declared in ASTEnums.h,
which is not among the sources; the spec describes it as the Cartesian
product of the six scalar bases with scalar, vector (N in 2..4) and matrix
(MxN for M,N in 2..4) shapes, plus String. The variant names follow the
uses in HLSLKeywords.cpp (T::Bool, T::UInt2, T::Float4x4, ...).
-/
inductive DataType where
  | String
  | Bool | Int | UInt | Half | Float | Double
  | Bool2 | Bool3 | Bool4
  | Int2 | Int3 | Int4
  | UInt2 | UInt3 | UInt4
  | Half2 | Half3 | Half4
  | Float2 | Float3 | Float4
  | Double2 | Double3 | Double4
  | Bool2x2 | Bool2x3 | Bool2x4 | Bool3x2 | Bool3x3 | Bool3x4 | Bool4x2 | Bool4x3 | Bool4x4
  | Int2x2 | Int2x3 | Int2x4 | Int3x2 | Int3x3 | Int3x4 | Int4x2 | Int4x3 | Int4x4
  | UInt2x2 | UInt2x3 | UInt2x4 | UInt3x2 | UInt3x3 | UInt3x4 | UInt4x2 | UInt4x3 | UInt4x4
  | Half2x2 | Half2x3 | Half2x4 | Half3x2 | Half3x3 | Half3x4 | Half4x2 | Half4x3 | Half4x4
  | Float2x2 | Float2x3 | Float2x4 | Float3x2 | Float3x3 | Float3x4 | Float4x2 | Float4x3 | Float4x4
  | Double2x2 | Double2x3 | Double2x4 | Double3x2 | Double3x3 | Double3x4 | Double4x2 | Double4x3 | Double4x4
deriving DecidableEq, Repr

/--
Modelled from the spec: IsScalarType is declared outside the sources; the
spec says the scalar types are exactly the six one-component bases (with
String outside all three classes).
-/
def IsScalarType : DataType → Bool
  | .Bool | .Int | .UInt | .Half | .Float | .Double => true
  | _ => false

/--
Modelled from the spec: IsVectorType is declared outside the sources; the
vector types are the N-component variants for N in 2..4.
-/
def IsVectorType : DataType → Bool
  | .Bool2 | .Bool3 | .Bool4
  | .Int2 | .Int3 | .Int4
  | .UInt2 | .UInt3 | .UInt4
  | .Half2 | .Half3 | .Half4
  | .Float2 | .Float3 | .Float4
  | .Double2 | .Double3 | .Double4 => true
  | _ => false

/--
Modelled from the spec: IsMatrixType is declared outside the sources; the
matrix types are the MxN variants for M,N in 2..4.
-/
def IsMatrixType : DataType → Bool
  | .Bool2x2 | .Bool2x3 | .Bool2x4 | .Bool3x2 | .Bool3x3 | .Bool3x4 | .Bool4x2 | .Bool4x3 | .Bool4x4
  | .Int2x2 | .Int2x3 | .Int2x4 | .Int3x2 | .Int3x3 | .Int3x4 | .Int4x2 | .Int4x3 | .Int4x4
  | .UInt2x2 | .UInt2x3 | .UInt2x4 | .UInt3x2 | .UInt3x3 | .UInt3x4 | .UInt4x2 | .UInt4x3 | .UInt4x4
  | .Half2x2 | .Half2x3 | .Half2x4 | .Half3x2 | .Half3x3 | .Half3x4 | .Half4x2 | .Half4x3 | .Half4x4
  | .Float2x2 | .Float2x3 | .Float2x4 | .Float3x2 | .Float3x3 | .Float3x4 | .Float4x2 | .Float4x3 | .Float4x4
  | .Double2x2 | .Double2x3 | .Double2x4 | .Double3x2 | .Double3x3 | .Double3x4 | .Double4x2 | .Double4x3 | .Double4x4 => true
  | _ => false

/--
Modelled from the spec: VectorTypeDim is declared outside the sources; the
spec defines it on vector types with values in 2..4. Every use in the
sources is guarded by IsVectorType, so the value 0 on other types is never
observed.
-/
def VectorTypeDim : DataType → Nat
  | .Bool2 | .Int2 | .UInt2 | .Half2 | .Float2 | .Double2 => 2
  | .Bool3 | .Int3 | .UInt3 | .Half3 | .Float3 | .Double3 => 3
  | .Bool4 | .Int4 | .UInt4 | .Half4 | .Float4 | .Double4 => 4
  | _ => 0

/--
Modelled from the spec: MatrixTypeDim is declared outside the sources; the
spec defines it on matrix types with values (M,N) for M,N in 2..4. Every
use in the sources is guarded by IsMatrixType, so the value (0,0) on other
types is never observed.
-/
def MatrixTypeDim : DataType → Nat × Nat
  | .Bool2x2 | .Int2x2 | .UInt2x2 | .Half2x2 | .Float2x2 | .Double2x2 => (2, 2)
  | .Bool2x3 | .Int2x3 | .UInt2x3 | .Half2x3 | .Float2x3 | .Double2x3 => (2, 3)
  | .Bool2x4 | .Int2x4 | .UInt2x4 | .Half2x4 | .Float2x4 | .Double2x4 => (2, 4)
  | .Bool3x2 | .Int3x2 | .UInt3x2 | .Half3x2 | .Float3x2 | .Double3x2 => (3, 2)
  | .Bool3x3 | .Int3x3 | .UInt3x3 | .Half3x3 | .Float3x3 | .Double3x3 => (3, 3)
  | .Bool3x4 | .Int3x4 | .UInt3x4 | .Half3x4 | .Float3x4 | .Double3x4 => (3, 4)
  | .Bool4x2 | .Int4x2 | .UInt4x2 | .Half4x2 | .Float4x2 | .Double4x2 => (4, 2)
  | .Bool4x3 | .Int4x3 | .UInt4x3 | .Half4x3 | .Float4x3 | .Double4x3 => (4, 3)
  | .Bool4x4 | .Int4x4 | .UInt4x4 | .Half4x4 | .Float4x4 | .Double4x4 => (4, 4)
  | _ => (0, 0)

/--
Modelled from the spec: the StorageClass enumeration is declared in
ASTEnums.h, outside the sources; the variant names follow the uses in
GenerateStorageClassMap of HLSLKeywords.cpp.
-/
inductive StorageClass where
  | Extern | Precise | Shared | GroupShared | Static | Uniform | Volatile
  | NoInterpolation | Linear | Centroid | NoPerspective | Sample
deriving DecidableEq, Repr

/--
Modelled from the spec: the BufferType enumeration is declared in
ASTEnums.h, outside the sources; the variant names follow the uses in
GenerateBufferTypeMap of HLSLKeywords.cpp, two of which (StucturedBuffer
and RWStucturedBuffer) are misspelled there.
-/
inductive BufferType where
  | Buffer | StucturedBuffer | ByteAddressBuffer
  | RWBuffer | RWStucturedBuffer | RWByteAddressBuffer
  | AppendStructuredBuffer | ConsumeStructuredBuffer
  | RWTexture1D | RWTexture1DArray | RWTexture2D | RWTexture2DArray | RWTexture3D
  | Texture1D | Texture1DArray | Texture2D | Texture2DArray | Texture3D
  | TextureCube | TextureCubeArray | Texture2DMS | Texture2DMSArray
deriving DecidableEq, Repr

/-- The TypeDenoter::Types tag enumeration of TypeDenoter.h. -/
inductive Types where
  | Void | Base | Buffer | Texture | Sampler | Struct | Alias | Array
deriving DecidableEq, Repr

/--
Modelled from the spec: an array dimension holds a dimension expression,
either a constant-evaluable value or unbounded. The source stores an
ExprPtr whose structure no operation of TypeDenoter.cpp inspects (only the
number of dimensions is read), so the payload is reduced to the evaluated
constant.
-/
structure ArrayDimension where
  size : Option Int
deriving DecidableEq, Repr

/--
The TypeDenoter class hierarchy of TypeDenoter.h and TypeDenoter.cpp as a
sum type: one constructor per subclass, carrying that subclass payload.
The StructDecl back-reference of StructTypeDenoter is reduced to the name
of the referenced declaration; the classification payloads of the buffer,
texture and sampler denoters are not read by any operation defined in
TypeDenoter.cpp and are omitted. The null-able baseTypeDenoter pointer of
ArrayTypeDenoter becomes an Option.
-/
inductive TypeDenoter where
  | VoidTypeDenoter
  | BaseTypeDenoter (dataType : DataType)
  | BufferTypeDenoter
  | TextureTypeDenoter
  | SamplerTypeDenoter
  | StructTypeDenoter (ident : String) (structDeclRef : Option String)
  | AliasTypeDenoter (ident : String)
  | ArrayTypeDenoter (baseTypeDenoter : Option TypeDenoter) (arrayDims : List ArrayDimension)

namespace TypeDenoter

/-- The virtual Type() method: each subclass returns its own tag. -/
def typeOf : TypeDenoter → Types
  | .VoidTypeDenoter => Types.Void
  | .BaseTypeDenoter _ => Types.Base
  | .BufferTypeDenoter => Types.Buffer
  | .TextureTypeDenoter => Types.Texture
  | .SamplerTypeDenoter => Types.Sampler
  | .StructTypeDenoter _ _ => Types.Struct
  | .AliasTypeDenoter _ => Types.Alias
  | .ArrayTypeDenoter _ _ => Types.Array

/--
The virtual IsScalar() method: the TypeDenoter base class returns false and
only BaseTypeDenoter overrides it, with IsScalarType on its dataType.
-/
def IsScalar : TypeDenoter → Bool
  | .BaseTypeDenoter dataType => IsScalarType dataType
  | _ => false

/--
The virtual IsVector() method: the TypeDenoter base class returns false and
only BaseTypeDenoter overrides it, with IsVectorType on its dataType.
-/
def IsVector : TypeDenoter → Bool
  | .BaseTypeDenoter dataType => IsVectorType dataType
  | _ => false

/--
The virtual IsMatrix() method: the TypeDenoter base class returns false and
only BaseTypeDenoter overrides it, with IsMatrixType on its dataType.
-/
def IsMatrix : TypeDenoter → Bool
  | .BaseTypeDenoter dataType => IsMatrixType dataType
  | _ => false

/--
The virtual Equals(rhs) method. TypeDenoter.cpp overrides it only in
BaseTypeDenoter (same tag and same dataType); every other subclass
inherits TypeDenoter::Equals, which compares the Type() tags alone.
-/
def Equals : TypeDenoter → TypeDenoter → Bool
  | .BaseTypeDenoter dataType, rhs =>
      typeOf rhs == Types.Base &&
        (match rhs with
         | .BaseTypeDenoter rhsData => dataType == rhsData
         | _ => false)
  | lhs, rhs => typeOf lhs == typeOf rhs

/--
The virtual IsCastableTo(targetType) method. VoidTypeDenoter returns
false; BaseTypeDenoter distinguishes scalar, vector and matrix sources
(the matrix branch tests targetType.IsVector() exactly as the source line
does); every other subclass inherits TypeDenoter::IsCastableTo, which
compares the Type() tags.
-/
def IsCastableTo : TypeDenoter → TypeDenoter → Bool
  | .VoidTypeDenoter, _ => false
  | .BaseTypeDenoter dataType, targetType =>
      if IsScalarType dataType then
        typeOf targetType == Types.Base || typeOf targetType == Types.Struct
      else if IsVectorType dataType then
        if IsVector targetType then
          match targetType with
          | .BaseTypeDenoter targetData =>
              IsVector targetType && VectorTypeDim dataType == VectorTypeDim targetData
          | _ => false
        else false
      else if IsMatrixType dataType then
        if IsMatrix targetType then
          match targetType with
          | .BaseTypeDenoter targetData =>
              IsVector targetType && MatrixTypeDim dataType == MatrixTypeDim targetData
          | _ => false
        else false
      else false
  | lhs, targetType => typeOf lhs == typeOf targetType

/--
The virtual ToString() method of every subclass, with the throwing branch
of ArrayTypeDenoter::ToString (a null baseTypeDenoter) returned as an
error; an exception thrown by the recursive call propagates. The loop of
ArrayTypeDenoter::ToString appending one pair of brackets per dimension
becomes a fold over the dimension list.
-/
def ToStr : TypeDenoter → Except String String
  | .VoidTypeDenoter => .ok "void"
  | .BaseTypeDenoter dataType =>
      .ok (if IsScalarType dataType then "scalar"
           else if IsVectorType dataType then "vector"
           else if IsMatrixType dataType then "matrix"
           else "<undefined>")
  | .BufferTypeDenoter => .ok "buffer"
  | .TextureTypeDenoter => .ok "texture"
  | .SamplerTypeDenoter => .ok "sampler"
  | .StructTypeDenoter ident _ =>
      .ok ("struct " ++ (if ident ≠ "" then ident else "<anonymous>"))
  | .AliasTypeDenoter ident => .ok ident
  | .ArrayTypeDenoter baseTypeDenoter arrayDims =>
      match baseTypeDenoter with
      | none => .error "missing base type in array type denoter"
      | some inner =>
          match ToStr inner with
          | .error e => .error e
          | .ok typeName => .ok (arrayDims.foldl (fun acc _ => acc ++ "[]") typeName)

/--
The virtual Ident() method: the TypeDenoter base class returns the empty
string; StructTypeDenoter and AliasTypeDenoter override it with their
identifier.
-/
def Ident : TypeDenoter → String
  | .StructTypeDenoter ident _ => ident
  | .AliasTypeDenoter ident => ident
  | _ => ""

end TypeDenoter

/--
The helper MapKeywordToType of HLSLKeywords.cpp: look the keyword up in
the map and return the mapped value, or throw a runtime error naming the
rejected keyword and the expected type category. The std::map becomes an
association list with lookup by key (every key of the three tables below
is unique), and the thrown exception becomes an error value.
-/
def MapKeywordToType {T : Type} (typeMap : List (String × T)) (keyword : String)
    (typeName : String) : Except String T :=
  match typeMap.lookup keyword with
  | some v => .ok v
  | none => .error ("failed to map keyword \x27" ++ keyword ++ "\x27 to " ++ typeName)

/-- The table literal of GenerateDataTypeMap in HLSLKeywords.cpp, entry for entry. -/
def GenerateDataTypeMap : List (String × DataType) :=
  [ ("string",    DataType.String),

    ("bool",      DataType.Bool),
    ("bool1",     DataType.Bool),
    ("bool1x1",   DataType.Bool),
    ("int",       DataType.Int),
    ("int1",      DataType.Int),
    ("int1x1",    DataType.Int),
    ("uint",      DataType.UInt),
    ("uint1",     DataType.UInt),
    ("uint1x1",   DataType.UInt),
    ("dword",     DataType.UInt),
    ("dword1",    DataType.UInt),
    ("dword1x1",  DataType.UInt),
    ("half",      DataType.Half),
    ("half1",     DataType.Half),
    ("half1x1",   DataType.Half),
    ("float",     DataType.Float),
    ("float1",    DataType.Float),
    ("float1x1",  DataType.Float),
    ("double",    DataType.Double),
    ("double1",   DataType.Double),
    ("double1x1", DataType.Double),

    ("bool2",     DataType.Bool2),
    ("bool3",     DataType.Bool3),
    ("bool4",     DataType.Bool4),
    ("int2",      DataType.Int2),
    ("int3",      DataType.Int3),
    ("int4",      DataType.Int4),
    ("uint2",     DataType.UInt2),
    ("uint3",     DataType.UInt3),
    ("uint4",     DataType.UInt4),
    ("dword2",    DataType.UInt2),
    ("dword3",    DataType.UInt3),
    ("dword4",    DataType.UInt4),
    ("half2",     DataType.Half2),
    ("half3",     DataType.Half3),
    ("half4",     DataType.Half4),
    ("float2",    DataType.Float2),
    ("float3",    DataType.Float3),
    ("float4",    DataType.Float4),
    ("double2",   DataType.Double2),
    ("double3",   DataType.Double3),
    ("double4",   DataType.Double4),

    ("bool2x2",   DataType.Bool2x2),
    ("bool2x3",   DataType.Bool2x3),
    ("bool2x4",   DataType.Bool2x4),
    ("bool3x2",   DataType.Bool3x2),
    ("bool3x3",   DataType.Bool3x3),
    ("bool3x4",   DataType.Bool3x4),
    ("bool4x2",   DataType.Bool4x2),
    ("bool4x3",   DataType.Bool4x3),
    ("bool4x4",   DataType.Bool4x4),
    ("int2x2",    DataType.Int2x2),
    ("int2x3",    DataType.Int2x3),
    ("int2x4",    DataType.Int2x4),
    ("int3x2",    DataType.Int3x2),
    ("int3x3",    DataType.Int3x3),
    ("int3x4",    DataType.Int3x4),
    ("int4x2",    DataType.Int4x2),
    ("int4x3",    DataType.Int4x3),
    ("int4x4",    DataType.Int4x4),
    ("uint2x2",   DataType.UInt2x2),
    ("uint2x3",   DataType.UInt2x3),
    ("uint2x4",   DataType.UInt2x4),
    ("uint3x2",   DataType.UInt3x2),
    ("uint3x3",   DataType.UInt3x3),
    ("uint3x4",   DataType.UInt3x4),
    ("uint4x2",   DataType.UInt4x2),
    ("uint4x3",   DataType.UInt4x3),
    ("uint4x4",   DataType.UInt4x4),
    ("dword2x2",  DataType.UInt2x2),
    ("dword2x3",  DataType.UInt2x3),
    ("dword2x4",  DataType.UInt2x4),
    ("dword3x2",  DataType.UInt3x2),
    ("dword3x3",  DataType.UInt3x3),
    ("dword3x4",  DataType.UInt3x4),
    ("dword4x2",  DataType.UInt4x2),
    ("dword4x3",  DataType.UInt4x3),
    ("dword4x4",  DataType.UInt4x4),
    ("half2x2",   DataType.Half2x2),
    ("half2x3",   DataType.Half2x3),
    ("half2x4",   DataType.Half2x4),
    ("half3x2",   DataType.Half3x2),
    ("half3x3",   DataType.Half3x3),
    ("half3x4",   DataType.Half3x4),
    ("half4x2",   DataType.Half4x2),
    ("half4x3",   DataType.Half4x3),
    ("half4x4",   DataType.Half4x4),
    ("float2x2",  DataType.Float2x2),
    ("float2x3",  DataType.Float2x3),
    ("float2x4",  DataType.Float2x4),
    ("float3x2",  DataType.Float3x2),
    ("float3x3",  DataType.Float3x3),
    ("float3x4",  DataType.Float3x4),
    ("float4x2",  DataType.Float4x2),
    ("float4x3",  DataType.Float4x3),
    ("float4x4",  DataType.Float4x4),
    ("double2x2", DataType.Double2x2),
    ("double2x3", DataType.Double2x3),
    ("double2x4", DataType.Double2x4),
    ("double3x2", DataType.Double3x2),
    ("double3x3", DataType.Double3x3),
    ("double3x4", DataType.Double3x4),
    ("double4x2", DataType.Double4x2),
    ("double4x3", DataType.Double4x3),
    ("double4x4", DataType.Double4x4) ]

/-- HLSLKeywordToDataType of HLSLKeywords.cpp. -/
def HLSLKeywordToDataType (keyword : String) : Except String DataType :=
  MapKeywordToType GenerateDataTypeMap keyword "data type"

/-- The table literal of GenerateStorageClassMap in HLSLKeywords.cpp, entry for entry. -/
def GenerateStorageClassMap : List (String × StorageClass) :=
  [ ("extern",          StorageClass.Extern),
    ("precise",         StorageClass.Precise),
    ("shared",          StorageClass.Shared),
    ("groupshared",     StorageClass.GroupShared),
    ("static",          StorageClass.Static),
    ("uniform",         StorageClass.Uniform),
    ("volatile",        StorageClass.Volatile),

    ("nointerpolation", StorageClass.NoInterpolation),
    ("linear",          StorageClass.Linear),
    ("centroid",        StorageClass.Centroid),
    ("noperspective",   StorageClass.NoPerspective),
    ("sample",          StorageClass.Sample) ]

/-- HLSLKeywordToStorageClass of HLSLKeywords.cpp. -/
def HLSLKeywordToStorageClass (keyword : String) : Except String StorageClass :=
  MapKeywordToType GenerateStorageClassMap keyword "storage class"

/-- The table literal of GenerateBufferTypeMap in HLSLKeywords.cpp, entry for entry, with the misspelled keys StucturedBuffer and RWStucturedBuffer exactly as they stand in the source. -/
def GenerateBufferTypeMap : List (String × BufferType) :=
  [ ("Buffer",                  BufferType.Buffer),
    ("StucturedBuffer",         BufferType.StucturedBuffer),
    ("ByteAddressBuffer",       BufferType.ByteAddressBuffer),

    ("RWBuffer",                BufferType.RWBuffer),
    ("RWStucturedBuffer",       BufferType.RWStucturedBuffer),
    ("RWByteAddressBuffer",     BufferType.RWByteAddressBuffer),
    ("AppendStructuredBuffer",  BufferType.AppendStructuredBuffer),
    ("ConsumeStructuredBuffer", BufferType.ConsumeStructuredBuffer),

    ("RWTexture1D",             BufferType.RWTexture1D),
    ("RWTexture1DArray",        BufferType.RWTexture1DArray),
    ("RWTexture2D",             BufferType.RWTexture2D),
    ("RWTexture2DArray",        BufferType.RWTexture2DArray),
    ("RWTexture3D",             BufferType.RWTexture3D),

    ("Texture1D",               BufferType.Texture1D),
    ("Texture1DArray",          BufferType.Texture1DArray),
    ("Texture2D",               BufferType.Texture2D),
    ("Texture2DArray",          BufferType.Texture2DArray),
    ("Texture3D",               BufferType.Texture3D),
    ("TextureCube",             BufferType.TextureCube),
    ("TextureCubeArray",        BufferType.TextureCubeArray),
    ("Texture2DMS",             BufferType.Texture2DMS),
    ("Texture2DMSArray",        BufferType.Texture2DMSArray) ]

/-- HLSLKeywordToBufferType of HLSLKeywords.cpp. -/
def HLSLKeywordToBufferType (keyword : String) : Except String BufferType :=
  MapKeywordToType GenerateBufferTypeMap keyword "buffer type"

/--
The PreProcessor::IfBlock record of PreProcessor.h with its member
initializers: active defaults to true and expectEndif to false. The
directive token and its source, never read by the operations below, are
reduced to the token spelling and the source name.
-/
structure IfBlock where
  directiveToken : Option String := none
  directiveSource : Option String := none
  active : Bool := true
  expectEndif : Bool := false
deriving DecidableEq, Repr

/--
Modelled from the spec: the body of PreProcessor::TopIfBlock is not among
the sources; its declaration in PreProcessor.h documents that it returns
the if-block state from the top of the stack and, if the stack is empty,
the default state. The std::stack becomes a list with its top at the head.
-/
def TopIfBlock (ifBlockStack : List IfBlock) : IfBlock :=
  match ifBlockStack with
  | top :: _ => top
  | [] => {}

/--
Modelled from the spec: the body of PreProcessor::PushIfBlock is not among
the sources; its declaration in PreProcessor.h gives the default arguments
active = false and expectEndif = false, and the member stack it pushes
onto. The pushed record carries the directive token it was given.
-/
def PushIfBlock (ifBlockStack : List IfBlock) (directiveToken : Option String)
    (active : Bool := false) (expectEndif : Bool := false) : List IfBlock :=
  { directiveToken, active, expectEndif } :: ifBlockStack

/--
Invariant (a) of the spec, as a predicate on the embedding: every array
denoter reachable through the chain of inner denoters has a non-null inner
denoter.
-/
def NoNullInner : TypeDenoter → Bool
  | .ArrayTypeDenoter none _ => false
  | .ArrayTypeDenoter (some inner) _ => NoNullInner inner
  | _ => true

/-- A string of exactly k copies of a pair of square brackets. -/
def bracketCopies : Nat → String
  | 0 => ""
  | n + 1 => "[]" ++ bracketCopies n

/-- The payload that BaseTypeDenoter::Equals compares beyond the Type() tag. -/
def baseData : TypeDenoter → Option DataType
  | .BaseTypeDenoter dataType => some dataType
  | _ => none

/-- The pair of observations that determine the Equals relation. -/
def equalsKey (t : TypeDenoter) : Types × Option DataType :=
  (TypeDenoter.typeOf t, baseData t)

/-- Two denoters satisfy Equals exactly when their tag and base payload agree. -/
theorem equals_eq_true_iff_key (a b : TypeDenoter) :
    TypeDenoter.Equals a b = true ↔ equalsKey a = equalsKey b := by
  cases a <;> cases b <;>
    simp [TypeDenoter.Equals, TypeDenoter.typeOf, equalsKey, baseData]

/-- The fold of the array pretty-printing loop appends one bracket pair per dimension. -/
theorem foldl_append_brackets (l : List ArrayDimension) (acc : String) :
    l.foldl (fun acc _ => acc ++ "[]") acc = acc ++ bracketCopies l.length := by
  induction l generalizing acc with
  | nil => simp [bracketCopies, String.append_empty]
  | cons hd tl ih =>
      simp only [List.foldl, List.length_cons, ih, bracketCopies]
      rw [String.append_assoc]

/-- A denoter satisfying invariant (a) pretty-prints without an error. -/
theorem tostr_isOk_of_noNullInner (t : TypeDenoter) (h : NoNullInner t = true) :
    (TypeDenoter.ToStr t).isOk = true :=
  match t with
  | .VoidTypeDenoter => rfl
  | .BaseTypeDenoter _ => rfl
  | .BufferTypeDenoter => rfl
  | .TextureTypeDenoter => rfl
  | .SamplerTypeDenoter => rfl
  | .StructTypeDenoter _ _ => rfl
  | .AliasTypeDenoter _ => rfl
  | .ArrayTypeDenoter (some inner) dims => by
      have hin : NoNullInner inner = true := by
        simpa [NoNullInner] using h
      have := tostr_isOk_of_noNullInner inner hin
      cases hr : TypeDenoter.ToStr inner with
      | ok s => simp [TypeDenoter.ToStr, hr, Except.isOk, Except.toBool]
      | error e =>
          rw [hr] at this
          exact absurd this (by simp [Except.isOk, Except.toBool])
  | .ArrayTypeDenoter none dims => by
      simp [NoNullInner] at h

/--
C1: the spec permits casting a matrix Base denoter to a matrix Base denoter
with the same dimensions, but the source tests targetType.IsVector() inside
the matrix branch, so IsCastableTo on a matrix source never returns true:
even a Float2x2 source with an identical Float2x2 target is rejected.
-/
theorem matrix_cast_to_same_shape_rejected :
    TypeDenoter.IsMatrix (.BaseTypeDenoter .Float2x2) = true ∧
    TypeDenoter.IsMatrix (.BaseTypeDenoter .Float2x2) = true ∧
    MatrixTypeDim .Float2x2 = MatrixTypeDim .Float2x2 ∧
    TypeDenoter.IsCastableTo (.BaseTypeDenoter .Float2x2) (.BaseTypeDenoter .Float2x2) = false :=
  ⟨rfl, rfl, rfl, rfl⟩

/--
C2 counterexample: StructTypeDenoter does not override Equals, so two
struct denoters with distinct identifiers still satisfy Equals.
-/
theorem struct_equals_ignores_ident :
    TypeDenoter.Equals (.StructTypeDenoter "A" none) (.StructTypeDenoter "B" none) = true ∧
    "A" ≠ "B" :=
  ⟨rfl, by decide⟩

/--
C2 amended: Struct, Alias and Array denoters inherit TypeDenoter::Equals,
which compares Type() tags alone, so any two denoters of the same one of
these variants satisfy Equals regardless of identifier, inner denoter or
dimension list.
-/
theorem equals_inherited_on_struct_alias_array :
    (∀ i1 r1 i2 r2, TypeDenoter.Equals (.StructTypeDenoter i1 r1) (.StructTypeDenoter i2 r2) = true) ∧
    (∀ i1 i2, TypeDenoter.Equals (.AliasTypeDenoter i1) (.AliasTypeDenoter i2) = true) ∧
    (∀ b1 d1 b2 d2, TypeDenoter.Equals (.ArrayTypeDenoter b1 d1) (.ArrayTypeDenoter b2 d2) = true) :=
  ⟨fun _ _ _ _ => rfl, fun _ _ => rfl, fun _ _ _ _ => rfl⟩

/--
C4: the Equals relation on type denoters is reflexive, symmetric and
transitive, and denoters with different Type() tags never satisfy it.
-/
theorem equals_equivalence_and_variant_disjoint :
    (∀ a, TypeDenoter.Equals a a = true) ∧
    (∀ a b, TypeDenoter.Equals a b = TypeDenoter.Equals b a) ∧
    (∀ a b c, TypeDenoter.Equals a b = true → TypeDenoter.Equals b c = true →
       TypeDenoter.Equals a c = true) ∧
    (∀ a b, TypeDenoter.typeOf a ≠ TypeDenoter.typeOf b → TypeDenoter.Equals a b = false) := by
  refine ⟨?_, ?_, ?_, ?_⟩
  · intro a
    exact (equals_eq_true_iff_key a a).2 rfl
  · intro a b
    rw [Bool.eq_iff_iff, equals_eq_true_iff_key, equals_eq_true_iff_key]
    exact eq_comm
  · intro a b c hab hbc
    exact (equals_eq_true_iff_key a c).2
      ((equals_eq_true_iff_key a b).1 hab |>.trans ((equals_eq_true_iff_key b c).1 hbc))
  · intro a b h
    cases hE : TypeDenoter.Equals a b with
    | false => rfl
    | true =>
        exact absurd (congrArg Prod.fst ((equals_eq_true_iff_key a b).1 hE)) h

/--
C4 witness: the transitivity and disjointness parts applied at concrete
denoters.
-/
theorem equals_equivalence_witness :
    TypeDenoter.Equals .VoidTypeDenoter .VoidTypeDenoter = true ∧
    TypeDenoter.Equals .VoidTypeDenoter (.BaseTypeDenoter .Bool) = false :=
  ⟨equals_equivalence_and_variant_disjoint.2.2.1 .VoidTypeDenoter .VoidTypeDenoter
      .VoidTypeDenoter rfl rfl,
   equals_equivalence_and_variant_disjoint.2.2.2 .VoidTypeDenoter (.BaseTypeDenoter .Bool)
      (by decide)⟩

/--
C3: the buffer-type table of HLSLKeywords.cpp spells its structured-buffer
keys StucturedBuffer and RWStucturedBuffer, while the keyword table in the
same file spells StructuredBuffer and RWStructuredBuffer; the correctly
spelled lookups therefore fail with an error instead of mapping to the
structured-buffer variants.
-/
theorem structured_buffer_keyword_rejected :
    HLSLKeywordToBufferType "StructuredBuffer" =
      .error "failed to map keyword \x27StructuredBuffer\x27 to buffer type" ∧
    HLSLKeywordToBufferType "RWStructuredBuffer" =
      .error "failed to map keyword \x27RWStructuredBuffer\x27 to buffer type" ∧
    HLSLKeywordToBufferType "StucturedBuffer" = .ok BufferType.StucturedBuffer ∧
    HLSLKeywordToBufferType "RWStucturedBuffer" = .ok BufferType.RWStucturedBuffer :=
  ⟨rfl, rfl, rfl, rfl⟩

/--
C5: each scalar base spelling, its one-component alias and its one-by-one
matrix alias map to the same scalar DataType, and every dword spelling maps
to the DataType of the corresponding uint spelling.
-/
theorem datatype_alias_folding :
    (∀ p ∈ [("bool", DataType.Bool), ("int", DataType.Int), ("uint", DataType.UInt),
            ("half", DataType.Half), ("float", DataType.Float), ("double", DataType.Double)],
       IsScalarType p.2 = true ∧
       HLSLKeywordToDataType p.1 = .ok p.2 ∧
       HLSLKeywordToDataType (p.1 ++ "1") = .ok p.2 ∧
       HLSLKeywordToDataType (p.1 ++ "1x1") = .ok p.2) ∧
    (∀ n ∈ ["2", "3", "4"],
       HLSLKeywordToDataType ("dword" ++ n) = HLSLKeywordToDataType ("uint" ++ n)) ∧
    (∀ m ∈ ["2", "3", "4"], ∀ n ∈ ["2", "3", "4"],
       HLSLKeywordToDataType ("dword" ++ m ++ "x" ++ n) =
         HLSLKeywordToDataType ("uint" ++ m ++ "x" ++ n)) := by
  decide

/-- C5 witness: the folding applied at the bool and dword2 spellings. -/
theorem datatype_alias_folding_inst :
    (IsScalarType DataType.Bool = true ∧
     HLSLKeywordToDataType "bool" = .ok DataType.Bool ∧
     HLSLKeywordToDataType ("bool" ++ "1") = .ok DataType.Bool ∧
     HLSLKeywordToDataType ("bool" ++ "1x1") = .ok DataType.Bool) ∧
    HLSLKeywordToDataType ("dword" ++ "2") = HLSLKeywordToDataType ("uint" ++ "2") :=
  ⟨datatype_alias_folding.1 ("bool", DataType.Bool) (by simp),
   datatype_alias_folding.2.1 "2" (by simp)⟩

/--
Every keyword lookup through MapKeywordToType either returns the mapped
value of a present key, or fails with a message that contains the rejected
keyword and the expected type category.
-/
theorem mapKeywordToType_spec {T : Type} (m : List (String × T)) (s tn : String) :
    (m.lookup s = none →
      ∃ msg, MapKeywordToType m s tn = .error msg ∧
        (∃ p q, msg = p ++ s ++ q) ∧ (∃ p q, msg = p ++ tn ++ q)) ∧
    (∀ v, m.lookup s = some v → MapKeywordToType m s tn = .ok v) := by
  constructor
  · intro h
    refine ⟨"failed to map keyword \x27" ++ s ++ "\x27 to " ++ tn, ?_,
      ⟨"failed to map keyword \x27", "\x27 to " ++ tn, String.append_assoc _ _ _⟩,
      ⟨"failed to map keyword \x27" ++ s ++ "\x27 to ", "", (String.append_empty _).symm⟩⟩
    simp [MapKeywordToType, h]
  · intro v h
    simp [MapKeywordToType, h]

/--
C6: for each of the three keyword tables, a spelling that is not a key
fails with an error naming the rejected spelling and the expected category,
and a spelling that is a key returns its mapped value.
-/
theorem keyword_lookup_miss_and_hit (s : String) :
    (GenerateDataTypeMap.lookup s = none →
      ∃ msg, HLSLKeywordToDataType s = .error msg ∧
        (∃ p q, msg = p ++ s ++ q) ∧ (∃ p q, msg = p ++ "data type" ++ q)) ∧
    (∀ v, GenerateDataTypeMap.lookup s = some v → HLSLKeywordToDataType s = .ok v) ∧
    (GenerateStorageClassMap.lookup s = none →
      ∃ msg, HLSLKeywordToStorageClass s = .error msg ∧
        (∃ p q, msg = p ++ s ++ q) ∧ (∃ p q, msg = p ++ "storage class" ++ q)) ∧
    (∀ v, GenerateStorageClassMap.lookup s = some v → HLSLKeywordToStorageClass s = .ok v) ∧
    (GenerateBufferTypeMap.lookup s = none →
      ∃ msg, HLSLKeywordToBufferType s = .error msg ∧
        (∃ p q, msg = p ++ s ++ q) ∧ (∃ p q, msg = p ++ "buffer type" ++ q)) ∧
    (∀ v, GenerateBufferTypeMap.lookup s = some v → HLSLKeywordToBufferType s = .ok v) :=
  ⟨(mapKeywordToType_spec GenerateDataTypeMap s "data type").1,
   (mapKeywordToType_spec GenerateDataTypeMap s "data type").2,
   (mapKeywordToType_spec GenerateStorageClassMap s "storage class").1,
   (mapKeywordToType_spec GenerateStorageClassMap s "storage class").2,
   (mapKeywordToType_spec GenerateBufferTypeMap s "buffer type").1,
   (mapKeywordToType_spec GenerateBufferTypeMap s "buffer type").2⟩

/--
C6 witness: the miss case applied at a spelling absent from all three
tables, and the hit case applied at a storage-class key.
-/
theorem keyword_lookup_miss_and_hit_inst :
    (∃ msg, HLSLKeywordToDataType "foo" = .error msg ∧
      (∃ p q, msg = p ++ "foo" ++ q) ∧ (∃ p q, msg = p ++ "data type" ++ q)) ∧
    HLSLKeywordToStorageClass "uniform" = .ok StorageClass.Uniform :=
  ⟨(keyword_lookup_miss_and_hit "foo").1 rfl,
   (keyword_lookup_miss_and_hit "uniform").2.2.2.1 StorageClass.Uniform rfl⟩

/--
C7: pretty-printing an array denoter over an inner denoter whose own
pretty-printing succeeds yields the inner string followed by one pair of
square brackets per dimension.
-/
theorem array_tostring_appends_brackets (t : TypeDenoter) (dims : List ArrayDimension)
    (s : String) (h : TypeDenoter.ToStr t = .ok s) :
    TypeDenoter.ToStr (.ArrayTypeDenoter (some t) dims) =
      .ok (s ++ bracketCopies dims.length) := by
  simp [TypeDenoter.ToStr, h, foldl_append_brackets]

/-- C7 witness: a two-dimensional array over the void denoter. -/
theorem array_tostring_appends_brackets_inst :
    TypeDenoter.ToStr .VoidTypeDenoter = .ok "void" ∧
    TypeDenoter.ToStr (.ArrayTypeDenoter (some .VoidTypeDenoter) [⟨none⟩, ⟨none⟩]) =
      .ok ("void" ++ bracketCopies 2) :=
  ⟨rfl, array_tostring_appends_brackets _ _ _ rfl⟩

/--
C8 counterexample: an array denoter whose inner denoter is present but is
itself an array with a null inner denoter: ToString fails although the
outer inner denoter is not null.
-/
theorem array_tostring_error_with_nonnull_inner :
    TypeDenoter.ToStr (.ArrayTypeDenoter (some (.ArrayTypeDenoter none [])) []) =
      .error "missing base type in array type denoter" ∧
    (some (TypeDenoter.ArrayTypeDenoter none [])).isSome = true :=
  ⟨rfl, rfl⟩

/--
C8 amended: an array denoter with a null inner denoter always fails; one
with a present inner denoter fails exactly when the inner pretty-printing
fails; and under invariant (a) of the spec, with no null inner denoter
anywhere in the chain, pretty-printing always succeeds.
-/
theorem array_tostring_error_characterization :
    (∀ dims, TypeDenoter.ToStr (.ArrayTypeDenoter none dims) =
       .error "missing base type in array type denoter") ∧
    (∀ t dims, (TypeDenoter.ToStr (.ArrayTypeDenoter (some t) dims)).isOk =
       (TypeDenoter.ToStr t).isOk) ∧
    (∀ t, NoNullInner t = true → (TypeDenoter.ToStr t).isOk = true) := by
  refine ⟨fun _ => rfl, ?_, tostr_isOk_of_noNullInner⟩
  intro t dims
  cases hr : TypeDenoter.ToStr t <;>
    simp [TypeDenoter.ToStr, hr, Except.isOk, Except.toBool]

/-- C8 witness: the totality part applied at the void denoter. -/
theorem array_tostring_error_characterization_inst :
    NoNullInner .VoidTypeDenoter = true ∧
    (TypeDenoter.ToStr .VoidTypeDenoter).isOk = true :=
  ⟨rfl, array_tostring_error_characterization.2.2 .VoidTypeDenoter rfl⟩

/--
C9: a base denoter whose data type is neither scalar nor vector nor matrix
pretty-prints as the undefined marker.
-/
theorem base_tostring_undefined (d : DataType) (h1 : IsScalarType d = false)
    (h2 : IsVectorType d = false) (h3 : IsMatrixType d = false) :
    TypeDenoter.ToStr (.BaseTypeDenoter d) = .ok "<undefined>" := by
  simp [TypeDenoter.ToStr, h1, h2, h3]

/-- C9 witness: the String data type is in none of the three classes. -/
theorem base_tostring_undefined_inst :
    IsScalarType .String = false ∧ IsVectorType .String = false ∧
    IsMatrixType .String = false ∧
    TypeDenoter.ToStr (.BaseTypeDenoter .String) = .ok "<undefined>" :=
  ⟨rfl, rfl, rfl, base_tostring_undefined .String rfl rfl rfl⟩

/--
C10: a default-constructed IfBlock is active and does not yet expect an
endif, TopIfBlock on the empty stack reports that default state, and
PushIfBlock called with its default arguments pushes an inactive block.
-/
theorem ifblock_default_state :
    ({} : IfBlock).active = true ∧ ({} : IfBlock).expectEndif = false ∧
    (TopIfBlock []).active = true ∧ (TopIfBlock []).expectEndif = false ∧
    (∀ stack tok, TopIfBlock (PushIfBlock stack tok) =
       { directiveToken := tok, active := false, expectEndif := false }) :=
  ⟨rfl, rfl, rfl, rfl, fun _ _ => rfl⟩

end Xsc
